import Mathlib

/-!
Verification of the lipstick notification feedback player
(src/notifications/notificationfeedbackplayer.cpp).

The embedding models:
  - LipstickNotification: the notification record with the hints the player
    reads (feedback tags, sound file, suppress-sound, vibra, LED-suppress,
    origin-package, display-on), hidden/restored flags and progress flag.
    Hints are a map from known keys to optional values; an absent hint is
    modelled as none and resolved via hintValue (QVariantHash::value with a
    default).
  - PreviewMode: the anonymous-namespace enum of the source.
  - isEnabled: NotificationFeedbackPlayer::isEnabled, taking the suppression
    mode as a parameter (the source reads it from the topmost surface via
    suppressionMode below).
  - addNotification / removeNotification: the dispatcher slots, as state
    transformers on the binding multimap m_idToEventId, emitting the trace
    of Ngf client calls (stop-by-handle, stop-by-name, play) they issue.
    Ngf::Client::play returns a fresh event id, modelled by a counter.
-/

namespace Lipstick

/-- Resolution of a possibly-absent hint against a default, mirroring
QVariantHash::value(key, default) followed by the matching conversion. -/
def hintValue {α : Type} (v : Option α) (d : α) : α :=
  v.getD d

/-- The hint entries of a notification that the feedback player reads.
An entry is none when the hint is absent from the hash. -/
structure Hints where
  feedback : Option String
  ledDisabledWithoutBodyAndSummary : Option Bool
  suppressSound : Option Bool
  originPackage : Option String
  soundFile : Option String
  vibra : Option Bool
  displayOn : Option Bool
deriving DecidableEq

/-- The parts of LipstickNotification that the feedback player reads. -/
structure LipstickNotification where
  hidden : Bool
  restored : Bool
  hasProgress : Bool
  urgency : Int
  priority : Int
  body : String
  summary : String
  hints : Hints
deriving DecidableEq

/-- The PreviewMode enum from the source's anonymous namespace. -/
inductive PreviewMode where
  | allNotificationsEnabled
  | applicationNotificationsDisabled
  | systemNotificationsDisabled
  | allNotificationsDisabled
deriving DecidableEq

/-- Numeric value of each enum constant (the source enum starts at 0). -/
def PreviewMode.toNat : PreviewMode → Nat
  | .allNotificationsEnabled => 0
  | .applicationNotificationsDisabled => 1
  | .systemNotificationsDisabled => 2
  | .allNotificationsDisabled => 3

/-- The topmost Wayland surface as seen by the player: only its
NOTIFICATION_PREVIEWS_DISABLED window property matters. The property is
none when absent (an invalid property converts to 0 via toUInt, which the
default already yields). -/
structure Surface where
  notificationPreviewsDisabled : Option Nat
deriving DecidableEq

/-- Suppression mode computation in isEnabled: start from
AllNotificationsEnabled; if there is a topmost surface, read its
NOTIFICATION_PREVIEWS_DISABLED property with default AllNotificationsEnabled. -/
def suppressionMode : Option Surface → Nat
  | none => 0
  | some w => hintValue w.notificationPreviewsDisabled 0

/-- NotificationFeedbackPlayer::isEnabled, with the suppression mode
passed in (the source computes it from the topmost surface). -/
def isEnabled (n : LipstickNotification) (minimumPriority : Int) (mode : Nat) : Bool :=
  if n.hidden || n.restored then
    false
  else
    let urgency := n.urgency
    let priority := n.priority
    let notificationIsCritical :=
      decide (urgency ≥ 2) || hintValue n.hints.displayOn false
    (decide (priority ≥ minimumPriority) || notificationIsCritical)
      && (mode == 0
          || (mode == 1 && notificationIsCritical)
          || (mode == 2 && decide (urgency < 2)))

/-- Criticality as the spec words it: urgency at or above the critical
threshold 2, or the display-always hint true. -/
def specIsCritical (n : LipstickNotification) : Bool :=
  decide (n.urgency ≥ 2) || hintValue n.hints.displayOn false

/-- The spec's permission rules for the four suppression modes:
all-enabled always permits; app-notifications-disabled permits only if
critical; system-notifications-disabled permits only if urgency is below
the critical threshold; all-disabled never permits. -/
def specPermits (m : PreviewMode) (n : LipstickNotification) : Bool :=
  match m with
  | .allNotificationsEnabled => true
  | .applicationNotificationsDisabled => specIsCritical n
  | .systemNotificationsDisabled => decide (n.urgency < 2)
  | .allNotificationsDisabled => false

/-- The effect-parameter map built in addNotification. The source inserts
at most one value per distinct key of an initially empty
QMap of QVariant values, so the map is a record of optional entries:
media.leds, media.audio, media.vibra, sound.filename, sound.enabled. -/
structure EventProperties where
  mediaLeds : Option Bool
  mediaAudio : Option Bool
  mediaVibra : Option Bool
  soundFilename : Option String
  soundEnabled : Option Bool
deriving DecidableEq

/-- The empty property map. -/
def emptyProperties : EventProperties :=
  { mediaLeds := none, mediaAudio := none, mediaVibra := none,
    soundFilename := none, soundEnabled := none }

/-- One call issued to the Ngf client: stop by event id, stop by event
name, or play (which returned the given event id). -/
inductive NgfCall where
  | stopHandle (h : Nat)
  | stopName (name : String)
  | play (name : String) (props : EventProperties) (h : Nat)
deriving DecidableEq

/-- Dispatcher state: the m_idToEventId multimap (here keyed by the
notification id, which identifies the live notification the source keys
by pointer) and the next fresh event id the Ngf client will return. -/
structure PlayerState where
  bindings : List (Nat × Nat)
  nextHandle : Nat
deriving DecidableEq

/-- Splitting a character list at every occurrence of the separator,
keeping empty segments (QString::split's underlying splitting). -/
def splitCharList (sep : Char) : List Char → List (List Char)
  | [] => [[]]
  | c :: rest =>
      match splitCharList sep rest with
      | [] => [[]]
      | g :: gs => if c = sep then [] :: g :: gs else (c :: g) :: gs

/-- QString::split(",", SkipEmptyParts): split on commas, discard the
empty segments. -/
def splitSkipEmpty (s : String) : List String :=
  ((splitCharList ',' s.data).filter (fun g => !g.isEmpty)).map
    (fun g => String.mk g)

/-- Removal of the first 7 characters when the string starts with the
file URL scheme, as the sound-file branch does. -/
def stripFileScheme (s : String) : String :=
  if s.startsWith "file://" then s.drop 7 else s

/-- The property map built before the feedback loop: LED disabled when the
LED-without-body-and-summary hint (default true) holds and body and summary
are empty; audio disabled when the suppress-sound hint (default false)
holds; vibra disabled when the origin-package hint is non-empty; and when
the sound-file hint is non-empty, the stripped file name with sound forced
enabled. -/
def buildProperties (n : LipstickNotification) : EventProperties :=
  let soundFile := hintValue n.hints.soundFile ""
  { mediaLeds :=
      if hintValue n.hints.ledDisabledWithoutBodyAndSummary true
          && n.body.isEmpty && n.summary.isEmpty
      then some false else none,
    mediaAudio :=
      if hintValue n.hints.suppressSound false then some false else none,
    mediaVibra :=
      if !(hintValue n.hints.originPackage "").isEmpty then some false else none,
    soundFilename :=
      if !soundFile.isEmpty then some (stripFileScheme soundFile) else none,
    soundEnabled :=
      if !soundFile.isEmpty then some true else none }

/-- The feedback loop: for each effect item, stop any running effect of
that name, play the item with the given properties (the Ngf client hands
back a fresh event id) and record the binding. -/
def playItems (id : Nat) (props : EventProperties) :
    List String → PlayerState → PlayerState × List NgfCall
  | [], st => (st, [])
  | item :: rest, st =>
      let h := st.nextHandle
      let st1 : PlayerState :=
        { bindings := st.bindings ++ [(id, h)], nextHandle := h + 1 }
      let r := playItems id props rest st1
      (r.1, NgfCall.stopName item :: NgfCall.play item props h :: r.2)

/-- NotificationFeedbackPlayer::addNotification: look the notification up;
if absent or reporting progress, do nothing. Otherwise stop and erase all
bindings of this notification, then, if enabled at the configured minimum
priority and the feedback item list is non-empty, run the feedback loop
with the built properties, and finally, if enabled at minimum priority 0
and the vibra hint holds, stop and play the bare vibra effect and record
its binding. -/
def addNotification (store : Nat → Option LipstickNotification)
    (surface : Option Surface) (minimumPriority : Int) (id : Nat)
    (st : PlayerState) : PlayerState × List NgfCall :=
  match store id with
  | none => (st, [])
  | some n =>
      if n.hasProgress then (st, [])
      else
        let mine := st.bindings.filter (fun b => b.1 == id)
        let stops := mine.map (fun b => NgfCall.stopHandle b.2)
        let st1 : PlayerState :=
          { bindings := st.bindings.filter (fun b => !(b.1 == id)),
            nextHandle := st.nextHandle }
        let feedbackItems := splitSkipEmpty (hintValue n.hints.feedback "")
        let mode := suppressionMode surface
        let r2 :=
          if isEnabled n minimumPriority mode && !feedbackItems.isEmpty then
            playItems id (buildProperties n) feedbackItems st1
          else (st1, [])
        let r3 :=
          if isEnabled n 0 mode && hintValue n.hints.vibra false then
            let h := r2.1.nextHandle
            (({ bindings := r2.1.bindings ++ [(id, h)],
                nextHandle := h + 1 } : PlayerState),
             [NgfCall.stopName "vibra",
              NgfCall.play "vibra" emptyProperties h])
          else (r2.1, [])
        (r3.1, stops ++ r2.2 ++ r3.2)

/-- NotificationFeedbackPlayer::removeNotification: look the notification
up; if absent, do nothing; otherwise stop every bound event id of this
notification and erase the bindings. -/
def removeNotification (store : Nat → Option LipstickNotification)
    (id : Nat) (st : PlayerState) : PlayerState × List NgfCall :=
  match store id with
  | none => (st, [])
  | some _ =>
      let mine := st.bindings.filter (fun b => b.1 == id)
      (({ bindings := st.bindings.filter (fun b => !(b.1 == id)),
          nextHandle := st.nextHandle } : PlayerState),
       mine.map (fun b => NgfCall.stopHandle b.2))

/-- The event ids handed back by the play calls of a trace, in order. -/
def playHandles (calls : List NgfCall) : List Nat :=
  calls.filterMap (fun c =>
    match c with
    | NgfCall.play _ _ h => some h
    | _ => none)

/-- The effect names of the play calls of a trace, in order. -/
def playNames (calls : List NgfCall) : List String :=
  calls.filterMap (fun c =>
    match c with
    | NgfCall.play name _ _ => some name
    | _ => none)

/-- The bindings that the feedback loop appends for a notification when
the Ngf client starts counting event ids at h0: one pair per effect item,
with consecutive fresh event ids. -/
def freshPairs (id : Nat) : List String → Nat → List (Nat × Nat)
  | [], _ => []
  | _ :: rest, h0 => (id, h0) :: freshPairs id rest (h0 + 1)

/-- A store holding exactly one notification, under id 1. -/
def singleStore (n : LipstickNotification) : Nat → Option LipstickNotification :=
  fun i => if i == 1 then some n else none

/-- Sample notification with two feedback items and the vibra hint. -/
def sampleNotif : LipstickNotification :=
  { hidden := false, restored := false, hasProgress := false,
    urgency := 1, priority := 5, body := "", summary := "",
    hints := { feedback := some "sound,led", ledDisabledWithoutBodyAndSummary := none,
               suppressSound := none, originPackage := none, soundFile := none,
               vibra := some true, displayOn := none } }

/-- Sample notification with a sound-file hint but no feedback items. -/
def sampleSoundOnly : LipstickNotification :=
  { hidden := false, restored := false, hasProgress := false,
    urgency := 1, priority := 5, body := "", summary := "",
    hints := { feedback := none, ledDisabledWithoutBodyAndSummary := none,
               suppressSound := none, originPackage := none,
               soundFile := some "file:///tmp/ding.wav",
               vibra := none, displayOn := none } }

/-- Sample notification with one feedback item, a sound file and an
origin package. -/
def sampleForwarded : LipstickNotification :=
  { hidden := false, restored := false, hasProgress := false,
    urgency := 1, priority := 5, body := "", summary := "",
    hints := { feedback := some "chime", ledDisabledWithoutBodyAndSummary := none,
               suppressSound := none, originPackage := some "com.example.app",
               soundFile := some "file:///tmp/ding.wav",
               vibra := none, displayOn := none } }

/-- Sample notification reporting progress. -/
def sampleProgress : LipstickNotification :=
  { hidden := false, restored := false, hasProgress := true,
    urgency := 1, priority := 5, body := "", summary := "",
    hints := { feedback := some "sound", ledDisabledWithoutBodyAndSummary := none,
               suppressSound := none, originPackage := none, soundFile := none,
               vibra := some true, displayOn := none } }

/-- Sample player state with one stale binding for id 1 and one for id 2. -/
def sampleState : PlayerState :=
  { bindings := [(1, 10), (2, 11)], nextHandle := 12 }

/-- Claim C1: for a notification that is neither hidden nor restored,
isEnabled at any of the four suppression modes returns true iff
(priority ≥ minimumPriority OR isCritical) AND the mode permits it,
with the permission rules of the spec. -/
theorem isEnabled_spec (n : LipstickNotification) (minimumPriority : Int)
    (m : PreviewMode) (hh : n.hidden = false) (hr : n.restored = false) :
    isEnabled n minimumPriority m.toNat
      = ((decide (n.priority ≥ minimumPriority) || specIsCritical n)
          && specPermits m n) := by
  cases m <;>
    simp [isEnabled, specPermits, specIsCritical, PreviewMode.toNat, hh, hr]

/-- Witness for C1 at a concrete notification and mode. -/
theorem isEnabled_spec_witness :
    isEnabled
      { hidden := false, restored := false, hasProgress := false,
        urgency := 1, priority := 5, body := "b", summary := "s",
        hints := { feedback := some "sound", ledDisabledWithoutBodyAndSummary := none,
                   suppressSound := none, originPackage := none, soundFile := none,
                   vibra := none, displayOn := none } } 3
      PreviewMode.allNotificationsEnabled.toNat
      = ((decide ((5 : Int) ≥ 3)
            || specIsCritical
              { hidden := false, restored := false, hasProgress := false,
                urgency := 1, priority := 5, body := "b", summary := "s",
                hints := { feedback := some "sound", ledDisabledWithoutBodyAndSummary := none,
                           suppressSound := none, originPackage := none, soundFile := none,
                           vibra := none, displayOn := none } })
          && specPermits PreviewMode.allNotificationsEnabled
              { hidden := false, restored := false, hasProgress := false,
                urgency := 1, priority := 5, body := "b", summary := "s",
                hints := { feedback := some "sound", ledDisabledWithoutBodyAndSummary := none,
                           suppressSound := none, originPackage := none, soundFile := none,
                           vibra := none, displayOn := none } }) :=
  isEnabled_spec _ 3 PreviewMode.allNotificationsEnabled rfl rfl

/-- Claim C2: a hidden or restored notification is never enabled, for any
minimum priority and any suppression mode. -/
theorem isEnabled_hidden_restored (n : LipstickNotification)
    (h : n.hidden = true ∨ n.restored = true)
    (minimumPriority : Int) (mode : Nat) :
    isEnabled n minimumPriority mode = false := by
  rcases h with h | h <;> simp [isEnabled, h]

/-- Witness for C2: a concrete hidden notification with maximal urgency and
priority is still disabled under the permissive mode 0. -/
theorem isEnabled_hidden_restored_witness :
    isEnabled
      { hidden := true, restored := false, hasProgress := false,
        urgency := 2, priority := 100, body := "", summary := "",
        hints := { feedback := some "sound", ledDisabledWithoutBodyAndSummary := none,
                   suppressSound := none, originPackage := none, soundFile := none,
                   vibra := some true, displayOn := some true } } 0 0 = false :=
  isEnabled_hidden_restored _ (Or.inl rfl) 0 0

/-- Claim C9: with no topmost surface, or a topmost surface whose
suppression property is absent, the suppression mode is all-enabled (0),
and under mode 0 the mode gate always permits: isEnabled reduces to the
priority/criticality test alone for non-hidden, non-restored notifications. -/
theorem suppressionMode_default (s : Option Surface)
    (hs : s = none ∨ ∃ w, s = some w ∧ w.notificationPreviewsDisabled = none) :
    suppressionMode s = 0
      ∧ ∀ (n : LipstickNotification) (minimumPriority : Int),
          n.hidden = false → n.restored = false →
          isEnabled n minimumPriority (suppressionMode s)
            = (decide (n.priority ≥ minimumPriority) || specIsCritical n) := by
  have hmode : suppressionMode s = 0 := by
    rcases hs with rfl | ⟨w, rfl, hw⟩
    · rfl
    · simp [suppressionMode, hintValue, hw]
  refine ⟨hmode, ?_⟩
  intro n minimumPriority hh hr
  rw [hmode]
  simp [isEnabled, specIsCritical, hh, hr]

/-- Witness for C9 at the empty surface state and a concrete notification. -/
theorem suppressionMode_default_witness :
    suppressionMode none = 0
      ∧ ∀ (n : LipstickNotification) (minimumPriority : Int),
          n.hidden = false → n.restored = false →
          isEnabled n minimumPriority (suppressionMode none)
            = (decide (n.priority ≥ minimumPriority) || specIsCritical n) :=
  suppressionMode_default none (Or.inl rfl)

/-- Claim C10: every suppression mode other than 0, 1, 2 (so the defined
all-disabled value 3 as well as any unknown value 4 and above) disables
feedback for every notification and every minimum priority. -/
theorem isEnabled_unknown_mode (mode : Nat)
    (h0 : mode ≠ 0) (h1 : mode ≠ 1) (h2 : mode ≠ 2)
    (n : LipstickNotification) (minimumPriority : Int) :
    isEnabled n minimumPriority mode = false := by
  simp [isEnabled, h0, h1, h2]

/-- Witness for C10 at the unknown mode 7 and a concrete critical
notification. -/
theorem isEnabled_unknown_mode_witness :
    isEnabled
      { hidden := false, restored := false, hasProgress := false,
        urgency := 2, priority := 100, body := "", summary := "",
        hints := { feedback := some "sound", ledDisabledWithoutBodyAndSummary := none,
                   suppressSound := none, originPackage := none, soundFile := none,
                   vibra := some true, displayOn := some true } } 0 7 = false :=
  isEnabled_unknown_mode 7 (by decide) (by decide) (by decide) _ 0

/-- The feedback loop appends exactly the fresh bindings and advances the
event-id counter by the number of items. -/
theorem playItems_fst (id : Nat) (props : EventProperties) :
    ∀ (items : List String) (st : PlayerState),
    (playItems id props items st).1
      = { bindings := st.bindings ++ freshPairs id items st.nextHandle,
          nextHandle := st.nextHandle + items.length } := by
  intro items
  induction items with
  | nil => intro st; simp [playItems, freshPairs]
  | cons item rest ih =>
      intro st
      simp only [playItems, freshPairs, ih, List.append_assoc, List.singleton_append,
        List.length_cons]
      congr 1
      omega

/-- The event ids handed back inside the feedback loop are exactly the
second components of the fresh bindings. -/
theorem playItems_handles (id : Nat) (props : EventProperties) :
    ∀ (items : List String) (st : PlayerState),
    playHandles (playItems id props items st).2
      = (freshPairs id items st.nextHandle).map Prod.snd := by
  intro items
  induction items with
  | nil => intro st; simp [playItems, freshPairs, playHandles]
  | cons item rest ih =>
      intro st
      have h1 := ih { bindings := st.bindings ++ [(id, st.nextHandle)],
                      nextHandle := st.nextHandle + 1 }
      simp only [playItems, playHandles, freshPairs, List.filterMap_cons, List.map_cons]
      simp only [playHandles] at h1
      rw [h1]

/-- The effect names played by the feedback loop are exactly the items. -/
theorem playItems_names (id : Nat) (props : EventProperties) :
    ∀ (items : List String) (st : PlayerState),
    playNames (playItems id props items st).2 = items := by
  intro items
  induction items with
  | nil => intro st; simp [playItems, playNames]
  | cons item rest ih =>
      intro st
      have h1 := ih { bindings := st.bindings ++ [(id, st.nextHandle)],
                      nextHandle := st.nextHandle + 1 }
      simp only [playItems, playNames, List.filterMap_cons]
      simp only [playNames] at h1
      rw [h1]

/-- Every play call of the feedback loop carries the given properties. -/
theorem playItems_props (id : Nat) (props : EventProperties) :
    ∀ (items : List String) (st : PlayerState) (name : String)
      (p : EventProperties) (h : Nat),
    NgfCall.play name p h ∈ (playItems id props items st).2 → p = props := by
  intro items
  induction items with
  | nil => intro st name p h hm; simp [playItems] at hm
  | cons item rest ih =>
      intro st name p h hm
      simp only [playItems, List.mem_cons] at hm
      rcases hm with hm | hm | hm
      · cases hm
      · cases hm; rfl
      · exact ih _ name p h hm

/-- Every fresh binding is keyed by the given notification id. -/
theorem freshPairs_filter (id : Nat) :
    ∀ (items : List String) (h0 : Nat),
    (freshPairs id items h0).filter (fun b => b.1 == id)
      = freshPairs id items h0 := by
  intro items
  induction items with
  | nil => intro h0; simp [freshPairs]
  | cons item rest ih => intro h0; simp [freshPairs, ih]

/-- Filtering for an id right after erasing that id yields nothing. -/
theorem filter_erased (id : Nat) (l : List (Nat × Nat)) :
    (l.filter (fun b => !(b.1 == id))).filter (fun b => b.1 == id) = [] := by
  rw [List.filter_filter]
  simp

/-- Stop-by-handle calls contain no play call. -/
theorem playHandles_stops (l : List (Nat × Nat)) :
    playHandles (l.map (fun b => NgfCall.stopHandle b.2)) = [] := by
  simp [playHandles, List.filterMap_map]

/-- The play calls of a concatenation are the concatenated play calls. -/
theorem playHandles_append (a b : List NgfCall) :
    playHandles (a ++ b) = playHandles a ++ playHandles b := by
  simp [playHandles]

/-- The vibra branch trace hands back exactly its one event id. -/
theorem playHandles_vibra (h : Nat) :
    playHandles [NgfCall.stopName "vibra", NgfCall.play "vibra" emptyProperties h]
      = [h] := rfl

/-- Claim C3: for a live, non-progress notification, addNotification first
stops every existing binding of that notification (the trace begins with
the stop calls for those handles), and afterwards the bindings recorded
for that id are exactly the handles of the play calls of this very call:
never a mixture of two generations. -/
theorem addNotification_supersedes (store : Nat → Option LipstickNotification)
    (surface : Option Surface) (minimumPriority : Int) (id : Nat)
    (st : PlayerState) (n : LipstickNotification)
    (hs : store id = some n) (hp : n.hasProgress = false) :
    (∃ rest, (addNotification store surface minimumPriority id st).2
        = (st.bindings.filter (fun b => b.1 == id)).map
            (fun b => NgfCall.stopHandle b.2) ++ rest)
    ∧ (((addNotification store surface minimumPriority id st).1.bindings.filter
          (fun b => b.1 == id)).map (fun b => b.2)
        = playHandles (addNotification store surface minimumPriority id st).2) := by
  simp only [addNotification, hs, hp, Bool.false_eq_true, if_false]
  by_cases h2 : (isEnabled n minimumPriority (suppressionMode surface)
      && !(splitSkipEmpty (hintValue n.hints.feedback "")).isEmpty) = true <;>
    by_cases h3 : (isEnabled n 0 (suppressionMode surface)
        && hintValue n.hints.vibra false) = true
  · simp only [h2, h3, if_true, playItems_fst]
    constructor
    · exact ⟨_, List.append_assoc _ _ _⟩
    · simp [List.filter_append, filter_erased, freshPairs_filter,
        playHandles_append, playHandles_stops, playHandles_vibra, playItems_handles]
  · rw [Bool.not_eq_true] at h3
    simp only [h2, h3, Bool.false_eq_true, if_true, if_false, playItems_fst]
    constructor
    · exact ⟨_, by rw [List.append_nil]⟩
    · simp [List.filter_append, filter_erased, freshPairs_filter,
        playHandles_append, playHandles_stops, playItems_handles]
  · rw [Bool.not_eq_true] at h2
    simp only [h2, h3, Bool.false_eq_true, if_true, if_false]
    constructor
    · exact ⟨[NgfCall.stopName "vibra",
          NgfCall.play "vibra" emptyProperties st.nextHandle],
        by rw [List.append_nil]⟩
    · simp [List.filter_append, filter_erased, freshPairs_filter,
        playHandles_append, playHandles_stops, playHandles_vibra]
  · rw [Bool.not_eq_true] at h2 h3
    simp only [h2, h3, Bool.false_eq_true, if_false]
    constructor
    · exact ⟨[], by simp⟩
    · simp [filter_erased, playHandles_stops]

/-- Witness for C3 at a concrete store, state and notification. -/
theorem addNotification_supersedes_witness :
    singleStore sampleNotif 1 = some sampleNotif
    ∧ sampleNotif.hasProgress = false
    ∧ ((∃ rest, (addNotification (singleStore sampleNotif) none 0 1 sampleState).2
          = (sampleState.bindings.filter (fun b => b.1 == 1)).map
              (fun b => NgfCall.stopHandle b.2) ++ rest)
      ∧ (((addNotification (singleStore sampleNotif) none 0 1 sampleState).1.bindings.filter
            (fun b => b.1 == 1)).map (fun b => b.2)
          = playHandles (addNotification (singleStore sampleNotif) none 0 1 sampleState).2)) :=
  ⟨rfl, rfl,
    addNotification_supersedes (singleStore sampleNotif) none 0 1 sampleState
      sampleNotif rfl rfl⟩

/-- Claim C4: for a notification still present in the store,
removeNotification issues exactly one stop call per bound handle (so
exactly N stop calls for N live bindings) and leaves zero bindings
recorded for that notification. -/
theorem removeNotification_clears (store : Nat → Option LipstickNotification)
    (id : Nat) (st : PlayerState) (n : LipstickNotification)
    (hs : store id = some n) :
    (removeNotification store id st).2
        = (st.bindings.filter (fun b => b.1 == id)).map
            (fun b => NgfCall.stopHandle b.2)
    ∧ (removeNotification store id st).2.length
        = (st.bindings.filter (fun b => b.1 == id)).length
    ∧ (removeNotification store id st).1.bindings.filter (fun b => b.1 == id) = [] := by
  refine ⟨?_, ?_, ?_⟩
  · simp only [removeNotification, hs]
  · simp only [removeNotification, hs]
    simp
  · simp only [removeNotification, hs]
    exact filter_erased id st.bindings

/-- Witness for C4 at a concrete store and state with one live binding. -/
theorem removeNotification_clears_witness :
    singleStore sampleNotif 1 = some sampleNotif
    ∧ ((removeNotification (singleStore sampleNotif) 1 sampleState).2
          = (sampleState.bindings.filter (fun b => b.1 == 1)).map
              (fun b => NgfCall.stopHandle b.2)
      ∧ (removeNotification (singleStore sampleNotif) 1 sampleState).2.length
          = (sampleState.bindings.filter (fun b => b.1 == 1)).length
      ∧ (removeNotification (singleStore sampleNotif) 1 sampleState).1.bindings.filter
          (fun b => b.1 == 1) = []) :=
  ⟨rfl, removeNotification_clears (singleStore sampleNotif) 1 sampleState sampleNotif rfl⟩

/-- Stop-by-handle calls play no effect name. -/
theorem playNames_stops (l : List (Nat × Nat)) :
    playNames (l.map (fun b => NgfCall.stopHandle b.2)) = [] := by
  simp [playNames, List.filterMap_map]

/-- A default-true boolean hint resolves to true exactly when it is not
explicitly set to false. -/
theorem hintValue_true_iff (v : Option Bool) :
    hintValue v true = true ↔ v ≠ some false := by
  cases v with
  | none => simp [hintValue]
  | some b => cases b <;> simp [hintValue]

/-- LED characterization of the built properties. -/
theorem buildProperties_mediaLeds (n : LipstickNotification) :
    (buildProperties n).mediaLeds = some false
      ↔ (n.body = "" ∧ n.summary = ""
          ∧ n.hints.ledDisabledWithoutBodyAndSummary ≠ some false) := by
  simp only [buildProperties]
  by_cases hc : (hintValue n.hints.ledDisabledWithoutBodyAndSummary true
      && n.body.isEmpty && n.summary.isEmpty) = true
  · rw [if_pos hc]
    simp only [Bool.and_eq_true, String.isEmpty_iff] at hc
    obtain ⟨⟨hl, hb⟩, hsum⟩ := hc
    simp [hb, hsum, (hintValue_true_iff _).mp hl]
  · rw [if_neg hc]
    constructor
    · intro h; cases h
    · intro ⟨hb, hsum, hl⟩
      exact absurd (by rw [(hintValue_true_iff _).mpr hl, hb, hsum]; rfl) hc

/-- Audio characterization of the built properties. -/
theorem buildProperties_mediaAudio (n : LipstickNotification) :
    (buildProperties n).mediaAudio = some false
      ↔ hintValue n.hints.suppressSound false = true := by
  simp only [buildProperties]
  by_cases hc : hintValue n.hints.suppressSound false = true
  · rw [if_pos hc]; simp [hc]
  · rw [if_neg hc]; simp [hc]

/-- Vibration characterization of the built properties. -/
theorem buildProperties_mediaVibra (n : LipstickNotification) :
    (buildProperties n).mediaVibra = some false
      ↔ hintValue n.hints.originPackage "" ≠ "" := by
  simp only [buildProperties]
  by_cases hc : (hintValue n.hints.originPackage "").isEmpty = true
  · have he : hintValue n.hints.originPackage "" = "" :=
      (String.isEmpty_iff _).mp hc
    rw [hc]
    simp [he]
  · rw [Bool.not_eq_true] at hc
    rw [hc]
    have hne : hintValue n.hints.originPackage "" ≠ "" := by
      intro h
      rw [h] at hc
      exact absurd hc (by decide)
    simp [hne]

/-- Sound-file characterization of the built properties. -/
theorem buildProperties_sound (n : LipstickNotification)
    (hsf : hintValue n.hints.soundFile "" ≠ "") :
    (buildProperties n).soundFilename
        = some (stripFileScheme (hintValue n.hints.soundFile ""))
      ∧ (buildProperties n).soundEnabled = some true := by
  have hne : (hintValue n.hints.soundFile "").isEmpty = false := by
    rw [← Bool.not_eq_true, String.isEmpty_iff]; exact hsf
  simp only [buildProperties]
  rw [hne]
  exact ⟨rfl, rfl⟩

/-- Claim C5: both dispatcher entry points are total no-ops on their
degenerate inputs: addNotification with an absent or progress-reporting
notification, and removeNotification with an absent notification, change
no bindings and issue no Ngf call. -/
theorem dispatcher_total (store : Nat → Option LipstickNotification)
    (surface : Option Surface) (minimumPriority : Int) (id : Nat)
    (st : PlayerState) :
    ((store id = none ∨ ∃ n, store id = some n ∧ n.hasProgress = true) →
        addNotification store surface minimumPriority id st = (st, []))
    ∧ (store id = none → removeNotification store id st = (st, [])) := by
  constructor
  · rintro (h | ⟨n, h, hprog⟩)
    · simp [addNotification, h]
    · simp [addNotification, h, hprog]
  · intro h
    simp [removeNotification, h]

/-- Witness for C5: the empty store and a progress notification. -/
theorem dispatcher_total_witness :
    addNotification (fun _ => none) none 0 1 sampleState = (sampleState, [])
    ∧ addNotification (singleStore sampleProgress) none 0 1 sampleState
        = (sampleState, [])
    ∧ removeNotification (fun _ => none) 1 sampleState = (sampleState, []) :=
  ⟨(dispatcher_total (fun _ => none) none 0 1 sampleState).1 (Or.inl rfl),
   (dispatcher_total (singleStore sampleProgress) none 0 1 sampleState).1
     (Or.inr ⟨sampleProgress, rfl, rfl⟩),
   (dispatcher_total (fun _ => none) none 0 1 sampleState).2 rfl⟩

/-- Claim C6: for a live, non-progress notification with the vibra hint
set and priority below the configured minimum, addNotification still stops
the vibra effect, plays a bare vibra effect and records its handle,
provided isEnabled at minimum priority 0 holds; and under
app-notifications-disabled (mode 1) with urgency below the critical
threshold and no display-on hint, nothing is played at all. -/
theorem addNotification_vibra_bypass (store : Nat → Option LipstickNotification)
    (surface : Option Surface) (minimumPriority : Int) (id : Nat)
    (st : PlayerState) (n : LipstickNotification)
    (hs : store id = some n) (hp : n.hasProgress = false)
    (hv : hintValue n.hints.vibra false = true)
    (hlow : n.priority < minimumPriority) :
    (isEnabled n 0 (suppressionMode surface) = true →
        ∃ h rest,
          (addNotification store surface minimumPriority id st).2
              = rest ++ [NgfCall.stopName "vibra",
                  NgfCall.play "vibra" emptyProperties h]
            ∧ (id, h) ∈ (addNotification store surface minimumPriority id st).1.bindings)
    ∧ (suppressionMode surface = 1 → n.urgency < 2 →
        hintValue n.hints.displayOn false = false →
        playNames (addNotification store surface minimumPriority id st).2 = []) := by
  constructor
  · intro hen
    have h3 : (isEnabled n 0 (suppressionMode surface)
        && hintValue n.hints.vibra false) = true := by rw [hen, hv]; rfl
    simp only [addNotification, hs, hp, Bool.false_eq_true, if_false, h3, if_true]
    by_cases h2 : (isEnabled n minimumPriority (suppressionMode surface)
        && !(splitSkipEmpty (hintValue n.hints.feedback "")).isEmpty) = true
    · simp only [h2, if_true]
      exact ⟨_, _, rfl, by simp⟩
    · rw [Bool.not_eq_true] at h2
      simp only [h2, Bool.false_eq_true, if_false]
      exact ⟨_, _, rfl, by simp⟩
  · intro hmode hu hd
    have hcrit : (decide (n.urgency ≥ 2) || hintValue n.hints.displayOn false)
        = false := by
      rw [hd, decide_eq_false (by omega : ¬n.urgency ≥ 2)]; rfl
    have he : ∀ mp : Int, isEnabled n mp (suppressionMode surface) = false := by
      intro mp
      rw [hmode]
      simp only [isEnabled]
      split
      · rfl
      · rw [Bool.and_eq_false_iff]
        right
        simp [hcrit, decide_eq_false (by omega : ¬n.urgency ≥ 2), hd]
    have h2 : (isEnabled n minimumPriority (suppressionMode surface)
        && !(splitSkipEmpty (hintValue n.hints.feedback "")).isEmpty) = false := by
      rw [he]; rfl
    have h3 : (isEnabled n 0 (suppressionMode surface)
        && hintValue n.hints.vibra false) = false := by
      rw [he]; rfl
    simp only [addNotification, hs, hp, Bool.false_eq_true, if_false, h2, h3,
      List.append_nil]
    exact playNames_stops _

/-- Witness for C6 at minimum priority 10 and a priority-5 notification. -/
theorem addNotification_vibra_bypass_witness :
    singleStore sampleNotif 1 = some sampleNotif
    ∧ sampleNotif.hasProgress = false
    ∧ hintValue sampleNotif.hints.vibra false = true
    ∧ sampleNotif.priority < 10
    ∧ ((isEnabled sampleNotif 0 (suppressionMode none) = true →
          ∃ h rest,
            (addNotification (singleStore sampleNotif) none 10 1 sampleState).2
                = rest ++ [NgfCall.stopName "vibra",
                    NgfCall.play "vibra" emptyProperties h]
              ∧ (1, h) ∈ (addNotification (singleStore sampleNotif) none 10 1 sampleState).1.bindings)
      ∧ (suppressionMode none = 1 → sampleNotif.urgency < 2 →
          hintValue sampleNotif.hints.displayOn false = false →
          playNames (addNotification (singleStore sampleNotif) none 10 1 sampleState).2 = [])) :=
  ⟨rfl, rfl, rfl, by decide,
    addNotification_vibra_bypass (singleStore sampleNotif) none 10 1 sampleState
      sampleNotif rfl rfl rfl (by decide)⟩

/-- Claim C7: when the feedback loop runs (live non-progress notification,
non-empty feedback items, enabled at the configured minimum priority, and
no vibra hint), every started effect receives the built property set, and
that set disables LED iff body and summary are empty and the
LED-suppression hint is not explicitly false, disables audio iff the
suppress-sound hint resolves to true, disables vibration iff the
origin-package hint is non-empty, and, when a sound-file hint is present,
carries the stripped file name with sound forced enabled. -/
theorem addNotification_effect_properties (store : Nat → Option LipstickNotification)
    (surface : Option Surface) (minimumPriority : Int) (id : Nat)
    (st : PlayerState) (n : LipstickNotification)
    (hs : store id = some n) (hp : n.hasProgress = false)
    (hitems : (splitSkipEmpty (hintValue n.hints.feedback "")).isEmpty = false)
    (hen : isEnabled n minimumPriority (suppressionMode surface) = true)
    (hnv : hintValue n.hints.vibra false = false) :
    (∀ name p h,
        NgfCall.play name p h ∈ (addNotification store surface minimumPriority id st).2 →
        p = buildProperties n)
    ∧ ((buildProperties n).mediaLeds = some false
        ↔ (n.body = "" ∧ n.summary = ""
            ∧ n.hints.ledDisabledWithoutBodyAndSummary ≠ some false))
    ∧ ((buildProperties n).mediaAudio = some false
        ↔ hintValue n.hints.suppressSound false = true)
    ∧ ((buildProperties n).mediaVibra = some false
        ↔ hintValue n.hints.originPackage "" ≠ "")
    ∧ (hintValue n.hints.soundFile "" ≠ "" →
        (buildProperties n).soundFilename
            = some (stripFileScheme (hintValue n.hints.soundFile ""))
          ∧ (buildProperties n).soundEnabled = some true) := by
  refine ⟨?_, buildProperties_mediaLeds n, buildProperties_mediaAudio n,
    buildProperties_mediaVibra n, buildProperties_sound n⟩
  intro name p h hm
  have h2 : (isEnabled n minimumPriority (suppressionMode surface)
      && !(splitSkipEmpty (hintValue n.hints.feedback "")).isEmpty) = true := by
    rw [hen, hitems]; rfl
  have h3 : (isEnabled n 0 (suppressionMode surface)
      && hintValue n.hints.vibra false) = false := by
    rw [hnv]; exact Bool.and_false _
  simp only [addNotification, hs, hp, Bool.false_eq_true, if_false, h2, h3,
    if_true, List.append_nil] at hm
  rw [List.mem_append] at hm
  rcases hm with hm | hm
  · exfalso
    rcases List.mem_map.mp hm with ⟨b, _, hb⟩
    cases hb
  · exact playItems_props _ _ _ _ name p h hm

/-- Witness for C7 at a forwarded notification with a sound file. -/
theorem addNotification_effect_properties_witness :
    singleStore sampleForwarded 1 = some sampleForwarded
    ∧ sampleForwarded.hasProgress = false
    ∧ (splitSkipEmpty (hintValue sampleForwarded.hints.feedback "")).isEmpty = false
    ∧ isEnabled sampleForwarded 0 (suppressionMode none) = true
    ∧ hintValue sampleForwarded.hints.vibra false = false
    ∧ ((∀ name p h,
          NgfCall.play name p h ∈ (addNotification (singleStore sampleForwarded) none 0 1 sampleState).2 →
          p = buildProperties sampleForwarded)
      ∧ ((buildProperties sampleForwarded).mediaLeds = some false
          ↔ (sampleForwarded.body = "" ∧ sampleForwarded.summary = ""
              ∧ sampleForwarded.hints.ledDisabledWithoutBodyAndSummary ≠ some false))
      ∧ ((buildProperties sampleForwarded).mediaAudio = some false
          ↔ hintValue sampleForwarded.hints.suppressSound false = true)
      ∧ ((buildProperties sampleForwarded).mediaVibra = some false
          ↔ hintValue sampleForwarded.hints.originPackage "" ≠ "")
      ∧ (hintValue sampleForwarded.hints.soundFile "" ≠ "" →
          (buildProperties sampleForwarded).soundFilename
              = some (stripFileScheme (hintValue sampleForwarded.hints.soundFile ""))
            ∧ (buildProperties sampleForwarded).soundEnabled = some true)) :=
  ⟨rfl, rfl, by decide, by decide, rfl,
    addNotification_effect_properties (singleStore sampleForwarded) none 0 1
      sampleState sampleForwarded rfl rfl (by decide) (by decide) rfl⟩

/-- Claim C8: the feedback-tag hint is split on commas with empty segments
discarded, and a notification whose resulting item list is empty starts no
effect even when a sound-file hint is present and isEnabled holds. -/
theorem feedback_split_no_playback (store : Nat → Option LipstickNotification)
    (surface : Option Surface) (minimumPriority : Int) (id : Nat)
    (st : PlayerState) (n : LipstickNotification)
    (hs : store id = some n) (hp : n.hasProgress = false)
    (hempty : splitSkipEmpty (hintValue n.hints.feedback "") = [])
    (hsound : hintValue n.hints.soundFile "" ≠ "")
    (hen : isEnabled n minimumPriority (suppressionMode surface) = true)
    (hnv : hintValue n.hints.vibra false = false) :
    (∀ s item, item ∈ splitSkipEmpty s → item ≠ "")
    ∧ splitSkipEmpty "sound,,led," = ["sound", "led"]
    ∧ playNames (addNotification store surface minimumPriority id st).2 = [] := by
  refine ⟨?_, by decide, ?_⟩
  · intro s item hm hcontra
    subst hcontra
    rcases List.mem_map.mp hm with ⟨g, hg, hmk⟩
    rcases List.mem_filter.mp hg with ⟨-, hne⟩
    cases g with
    | nil => simp at hne
    | cons c cs =>
        have hd := congrArg String.data hmk
        simp at hd
  · have h2 : (isEnabled n minimumPriority (suppressionMode surface)
        && !(splitSkipEmpty (hintValue n.hints.feedback "")).isEmpty) = false := by
      rw [hempty]; simp
    have h3 : (isEnabled n 0 (suppressionMode surface)
        && hintValue n.hints.vibra false) = false := by
      rw [hnv]; exact Bool.and_false _
    simp only [addNotification, hs, hp, Bool.false_eq_true, if_false, h2, h3,
      List.append_nil]
    exact playNames_stops _

/-- Witness for C8 at a notification with only a sound-file hint. -/
theorem feedback_split_no_playback_witness :
    singleStore sampleSoundOnly 1 = some sampleSoundOnly
    ∧ sampleSoundOnly.hasProgress = false
    ∧ splitSkipEmpty (hintValue sampleSoundOnly.hints.feedback "") = []
    ∧ hintValue sampleSoundOnly.hints.soundFile "" ≠ ""
    ∧ isEnabled sampleSoundOnly 0 (suppressionMode none) = true
    ∧ hintValue sampleSoundOnly.hints.vibra false = false
    ∧ ((∀ s item, item ∈ splitSkipEmpty s → item ≠ "")
      ∧ splitSkipEmpty "sound,,led," = ["sound", "led"]
      ∧ playNames (addNotification (singleStore sampleSoundOnly) none 0 1 sampleState).2 = []) :=
  ⟨rfl, rfl, by decide, by decide, by decide, rfl,
    feedback_split_no_playback (singleStore sampleSoundOnly) none 0 1 sampleState
      sampleSoundOnly rfl rfl (by decide) (by decide) (by decide) rfl⟩

end Lipstick
